import Mathlib

/-!
Verification of the KallistiOS Dreamcast CD-ROM driver core
(kernel/arch/dreamcast/hardware/cdrom.c together with the constants of
include/dc/cdrom.h).

The C code is embedded shallowly: the asynchronous GD-ROM syscall layer is
modelled as an environment of result streams (one entry per call made by the
driver), the polling loops become fuel-indexed recursive functions returning
an `Option` result (`none` = still running after the given number of
iterations), and every externally visible syscall of a command cycle is
recorded in an event trace so that retry counts, abort counts and the
lock discipline can be stated.
-/

/-! ### Constants from include/dc/cdrom.h -/

/-- CD_CMD_RETRY_MAX from cdrom.h line 46. -/
def CD_CMD_RETRY_MAX : Nat := 10

/-- cd_cmd_chk enum: command failed. -/
def CD_CMD_FAILED : Int := -1
/-- cd_cmd_chk enum: command requested not found. -/
def CD_CMD_NOT_FOUND : Int := 0
/-- cd_cmd_chk enum: processing command. -/
def CD_CMD_PROCESSING : Int := 1
/-- cd_cmd_chk enum: command completed successfully. -/
def CD_CMD_COMPLETED : Int := 2
/-- cd_cmd_chk enum: stream type command is in progress. -/
def CD_CMD_STREAMING : Int := 3
/-- cd_cmd_chk enum: GD syscalls busy. -/
def CD_CMD_BUSY : Int := 4

/-- cd_cmd_ret enum: no error. -/
def CD_ERR_OK : Int := 0
/-- cd_cmd_ret enum: no disc in drive. -/
def CD_ERR_NO_DISC : Int := 1
/-- cd_cmd_ret enum: disc changed, but not reinitted yet. -/
def CD_ERR_DISC_CHG : Int := 2
/-- cd_cmd_ret enum: system error. -/
def CD_ERR_SYS : Int := 3
/-- cd_cmd_ret enum: command aborted. -/
def CD_ERR_ABORTED : Int := 4
/-- cd_cmd_ret enum: system inactive. -/
def CD_ERR_NO_ACTIVE : Int := 5
/-- cd_cmd_ret enum: aborted due to timeout. -/
def CD_ERR_TIMEOUT : Int := 6

/-- cd_read_sec_part enum: read the whole sector. -/
def CD_READ_WHOLE_SECTOR : Int := 0x1000
/-- cd_read_sec_part enum: read the data area. -/
def CD_READ_DATA_AREA : Int := 0x2000
/-- cd_read_sec_part enum: cdrom_reinit default sentinel. -/
def CD_READ_DEFAULT : Int := -1

/-- cd_track_type enum: any track type. -/
def CD_TRACK_TYPE_ANY : Int := 0x0000
/-- cd_track_type enum: mode 1. -/
def CD_TRACK_TYPE_MODE1 : Int := 0x0400
/-- cd_track_type enum: mode 2 form 1. -/
def CD_TRACK_TYPE_MODE2_FORM1 : Int := 0x0800
/-- cd_track_type enum: default sentinel. -/
def CD_TRACK_TYPE_DEFAULT : Int := -1

/-- cd_disc_types enum: CD-ROM XA. -/
def CD_CDROM_XA : Int := 0x20

/-- cd_cmd_code enum: play track. -/
def CMD_PLAY : Int := 20
/-- cd_cmd_code enum: play sectors. -/
def CMD_PLAY2 : Int := 21
/-- cd_cmd_code enum: initialize the drive. -/
def CMD_INIT : Int := 24

/-- cd_cdda_mode enum: play by track number. -/
def CDDA_TRACKS : Int := 0
/-- cd_cdda_mode enum: play by sector number. -/
def CDDA_SECTORS : Int := 1

/-! ### Data structures from cdrom.h -/

/-- cd_cmd_chk_status_t: data filled in by syscall_gdrom_check_command. -/
structure cd_cmd_chk_status where
  err1 : Int
  err2 : Int
  size : Nat
  ata : Int
deriving DecidableEq

/-- cd_check_drive_params_t: data filled in by syscall_gdrom_check_drive. -/
structure cd_check_drive_params where
  status : Int
  disc_type : Int
deriving DecidableEq

/-- cd_sec_mode_params_t: parameters sent to syscall_gdrom_sector_mode. -/
structure cd_sec_mode_params where
  RW : Int
  sector_part : Int
  track_type : Int
  sector_size : Int
deriving DecidableEq

/-- cd_cmd_play_params_t: parameters for CMD_PLAY and CMD_PLAY2.  The source
fields are named start, end and repeat; the latter two are Lean keywords and
are rendered end_sec and repeat_cnt. -/
structure cd_cmd_play_params where
  start : Nat
  end_sec : Nat
  repeat_cnt : Nat
deriving DecidableEq

/-! ### Syscall environment and event traces

The GD-ROM syscall layer is outside this module (it lives in the BIOS); the
driver only observes the values those calls return.  An environment fixes, for
each call the driver makes, the value the syscall layer would return:
`send i c` is the handle returned by the i-th syscall_gdrom_send_command of
the cycle (for command code c), `chk k` the status returned / filled in by
the k-th syscall_gdrom_check_command, and `time k` the value of the k-th
timer_ms_gettime64 read (read 0 is the one taken before the poll loop). -/
structure GdEnv where
  send : Nat → Int → Int
  chk : Nat → Int × cd_cmd_chk_status
  time : Nat → Nat

/-- Externally visible events of one execute-command cycle: acquiring and
releasing the G1 ATA mutex, syscall_gdrom_send_command,
syscall_gdrom_exec_server (tick), thd_pass (yield),
syscall_gdrom_check_command (check) and syscall_gdrom_abort_command. -/
inductive GdEv where
  | lockAcq : GdEv
  | lockRel : GdEv
  | send : GdEv
  | tick : GdEv
  | yield : GdEv
  | check : GdEv
  | abort : GdEv
deriving DecidableEq

/-- 64-bit wrap-around subtraction, as performed on the uint64_t values of
timer_ms_gettime64 in the timeout comparison. -/
def u64_sub (a b : Nat) : Nat :=
  (a % 2 ^ 64 + (2 ^ 64 - b % 2 ^ 64)) % 2 ^ 64

/-! ### cdrom_exec_cmd_timed (cdrom.c lines 65-125) -/

/-- Submission loop of cdrom_exec_cmd_timed (lines 75-82): attempt
syscall_gdrom_send_command up to `r` more times starting with attempt index
`i`; between failed attempts (handle 0) drive syscall_gdrom_exec_server and
yield via thd_pass.  Returns the final value of the C variable `id` (0 when
every attempt returned 0) together with the trace of events. -/
def sendLoop (env : GdEnv) (cmd : Int) : Nat → Nat → Int × List GdEv
  | _, 0 => (0, [])
  | i, r + 1 =>
    let id := env.send i cmd
    if id ≠ 0 then (id, [GdEv.send])
    else
      let rest := sendLoop env cmd (i + 1) r
      (rest.1, GdEv.send :: GdEv.tick :: GdEv.yield :: rest.2)

/-- Result Classifier of cdrom_exec_cmd_timed (lines 109-124): map the
terminal completion status `n` and the filled check-status structure to a
cd_cmd_ret value.  The trailing err2 test of the source (lines 122-123) is
unreachable because every arm of the switch above it returns. -/
def classify (n : Int) (st : cd_cmd_chk_status) : Int :=
  if n = CD_CMD_COMPLETED ∨ n = CD_CMD_STREAMING then CD_ERR_OK
  else if n = CD_CMD_NOT_FOUND then CD_ERR_NO_ACTIVE
  else if st.err1 = 2 then CD_ERR_NO_DISC
  else if st.err1 = 6 then CD_ERR_DISC_CHG
  else CD_ERR_SYS

/-- Poll loop of cdrom_exec_cmd_timed (lines 88-107): iteration `k` drives
syscall_gdrom_exec_server, performs the k-th check, breaks to the classifier
on a terminal status, otherwise (when a timeout was requested) compares the
elapsed time of the (k+1)-th timer read against the budget, aborting on
excess, and otherwise yields and retries.  `fuel` bounds the number of
iterations modelled; `none` means the loop is still running. -/
def pollLoop (env : GdEnv) (timeout : Nat) : Nat → Nat → Option Int × List GdEv
  | _, 0 => (none, [])
  | k, fuel + 1 =>
    let r := env.chk k
    if r.1 ≠ CD_CMD_PROCESSING ∧ r.1 ≠ CD_CMD_BUSY then
      (some (classify r.1 r.2), [GdEv.tick, GdEv.check])
    else if timeout ≠ 0 ∧ timeout ≤ u64_sub (env.time (k + 1)) (env.time 0) then
      (some CD_ERR_TIMEOUT, [GdEv.tick, GdEv.check, GdEv.abort, GdEv.tick])
    else
      let rest := pollLoop env timeout (k + 1) fuel
      (rest.1, GdEv.tick :: GdEv.check :: GdEv.yield :: rest.2)

/-- cdrom_exec_cmd_timed (lines 65-125): acquire the G1 ATA mutex for the
whole cycle (mutex_lock_scoped releases it on every return path), submit the
command with bounded retry, fail with CD_ERR_SYS on a non-positive handle,
otherwise poll to completion and classify.  The returned trace records every
event of the cycle; a `none` result (fuel exhausted inside the poll loop)
still holds the lock, so no lockRel is emitted for it. -/
def cdrom_exec_cmd_timed (env : GdEnv) (cmd : Int) (timeout : Nat) (fuel : Nat) :
    Option Int × List GdEv :=
  let s := sendLoop env cmd 0 CD_CMD_RETRY_MAX
  if s.1 ≤ 0 then (some CD_ERR_SYS, GdEv.lockAcq :: (s.2 ++ [GdEv.lockRel]))
  else
    let p := pollLoop env timeout 0 fuel
    match p.1 with
    | none => (none, GdEv.lockAcq :: (s.2 ++ p.2))
    | some v => (some v, GdEv.lockAcq :: ((s.2 ++ p.2) ++ [GdEv.lockRel]))

/-! ### cdrom_get_status (cdrom.c lines 128-167) -/

/-- Environment for cdrom_get_status.  `check_drive k` is the return value
and the filled parameter structure of the k-th syscall_gdrom_check_drive
call.

Modelled from the spec: the field `lock_fail` stands for the result of
mutex_lock_irqsafe on _g1_ata_mutex, whose implementation (kos/mutex.h) is
not part of this module: per the spec the non-blocking acquire used by
interrupt-context status polls fails, returning a nonzero value immediately,
exactly when the gate is already held. -/
structure GetStatusEnv where
  lock_fail : Bool
  check_drive : Nat → Int × cd_check_drive_params

/-- Busy-wait loop of cdrom_get_status (lines 139-147): repeat
syscall_gdrom_check_drive while it returns CD_CMD_BUSY, yielding between
attempts.  Returns the first non-busy return value, the structure it filled,
and the number of check_drive calls made; `none` when the fuel runs out. -/
def getStatusLoop (env : GetStatusEnv) : Nat → Nat → Option (Int × cd_check_drive_params × Nat)
  | _, 0 => none
  | k, fuel + 1 =>
    let r := env.check_drive k
    if r.1 ≠ CD_CMD_BUSY then some (r.1, r.2, k + 1)
    else getStatusLoop env (k + 1) fuel

/-- cdrom_get_status (lines 128-167).  The two out-pointers are modelled by
the flags `status_null` and `disc_null` (true = caller passed NULL) and the
result records what was written through each pointer (`none` = nothing
written).  Result tuple: (return value, written status, written disc_type,
number of check_drive calls).  When the non-blocking acquire fails the
function returns -1 at once, making no syscall and writing nothing. -/
def cdrom_get_status (env : GetStatusEnv) (status_null disc_null : Bool) (fuel : Nat) :
    Option (Int × Option Int × Option Int × Nat) :=
  if env.lock_fail then some (-1, none, none, 0)
  else
    match getStatusLoop env 0 fuel with
    | none => none
    | some (rv, p, n) =>
      if 0 ≤ rv then
        some (rv, if status_null then none else some p.status,
              if disc_null then none else some p.disc_type, n)
      else
        some (rv, if status_null then none else some (-1),
              if disc_null then none else some (-1), n)

/-! ### cdrom_change_datatype (cdrom.c lines 170-209) -/

/-- Environment for cdrom_change_datatype: the drive-state structure that
syscall_gdrom_check_drive would fill, and the return value of
syscall_gdrom_sector_mode as a function of the parameter block sent. -/
structure DatatypeEnv where
  check_drive : cd_check_drive_params
  sector_mode : cd_sec_mode_params → Int

/-- Default resolution of cdrom_change_datatype (lines 176-201): resolve the
caller's (sector_part, track_type, sector_size) triple, consulting the
drive's reported disc type only in the non-2352 default-track-type branch. -/
def resolve_triple (env : DatatypeEnv) (sector_part track_type sector_size : Int) :
    Int × Int × Int :=
  if sector_size = 2352 then
    (if sector_part = CD_READ_DEFAULT then CD_READ_WHOLE_SECTOR else sector_part,
     if track_type = CD_TRACK_TYPE_DEFAULT then CD_TRACK_TYPE_ANY else track_type,
     2352)
  else
    (if sector_part = CD_READ_DEFAULT then CD_READ_DATA_AREA else sector_part,
     if track_type = CD_TRACK_TYPE_DEFAULT then
       (if env.check_drive.disc_type = CD_CDROM_XA then CD_TRACK_TYPE_MODE2_FORM1
        else CD_TRACK_TYPE_MODE1)
     else track_type,
     if sector_size = -1 then 2048 else sector_size)

/-- cdrom_change_datatype (lines 170-209): resolve defaults, then send the
resolved triple to the synchronous set-mode syscall with RW = 0 and return
that syscall's value unchanged. -/
def cdrom_change_datatype (env : DatatypeEnv) (sector_part track_type sector_size : Int) : Int :=
  let r := resolve_triple env sector_part track_type sector_size
  env.sector_mode ⟨0, r.1, r.2.1, r.2.2⟩

/-! ### cdrom_reinit_ex (cdrom.c lines 218-230) -/

/-- Disc-change retry loop of cdrom_reinit_ex (lines 221-223): run
cdrom_exec_cmd_timed(CMD_INIT, NULL, 10000) repeatedly while the outcome is
CD_ERR_DISC_CHG.  `envs i` is the syscall environment seen by the i-th
cycle, `cycles` bounds the number of cycles modelled.  Returns the first
non-disc-changed outcome together with the number of cycles executed. -/
def reinitLoop (envs : Nat → GdEnv) (fuel : Nat) : Nat → Nat → Option (Int × Nat)
  | _, 0 => none
  | i, c + 1 =>
    match (cdrom_exec_cmd_timed (envs i) CMD_INIT 10000 fuel).1 with
    | none => none
    | some r => if r = CD_ERR_DISC_CHG then reinitLoop envs fuel (i + 1) c else some (r, i + 1)

/-- cdrom_reinit_ex (lines 218-230): drive-init cycles until the outcome is
not disc-changed; surface no-disc, system-error and timeout outcomes without
touching the sector mode; otherwise return cdrom_change_datatype on the
caller's parameters.  The second component counts the executed init
cycles. -/
def cdrom_reinit_ex (envs : Nat → GdEnv) (dt : DatatypeEnv)
    (sector_part track_type sector_size : Int) (fuel cycles : Nat) : Option (Int × Nat) :=
  match reinitLoop envs fuel 0 cycles with
  | none => none
  | some (r, n) =>
    if r = CD_ERR_NO_DISC ∨ r = CD_ERR_SYS ∨ r = CD_ERR_TIMEOUT then some (r, n)
    else some (cdrom_change_datatype dt sector_part track_type sector_size, n)

/-! ### cdrom_locate_data_track (cdrom.c lines 285-301) -/

/-- TOC_LBA macro (cdrom.h line 80). -/
def TOC_LBA (n : Nat) : Nat := n &&& 0x00ffffff
/-- TOC_CTRL macro (cdrom.h line 92). -/
def TOC_CTRL (n : Nat) : Nat := (n &&& 0xf0000000) >>> 28
/-- TOC_TRACK macro (cdrom.h line 98). -/
def TOC_TRACK (n : Nat) : Nat := (n &&& 0x00ff0000) >>> 16

/-- cd_toc_t: TOC structure returned by the BIOS (cdrom.h lines 709-714). -/
structure cd_toc where
  entry : Fin 99 → Nat
  first : Nat
  last : Nat
  leadout_sector : Nat

/-- Read of the fixed 99-element entry array; the driver only indexes it
with j ≤ 98 (guaranteed by the guard of cdrom_locate_data_track). -/
def tocEntry (toc : cd_toc) (j : Nat) : Nat :=
  if h : j < 99 then toc.entry ⟨j, h⟩ else 0

/-- Backward scan of cdrom_locate_data_track (lines 295-298): walk i from
`last` down to `firstT`, returning the TOC_LBA of the first entry whose
TOC_CTRL is 4, and 0 when the scan runs out.  The `1 ≤ firstT` conjunct
reflects the already-checked guard and keeps the Nat index arithmetic exact. -/
def scanDown (toc : cd_toc) (firstT : Nat) (i : Nat) : Nat :=
  if h : 1 ≤ firstT ∧ firstT ≤ i then
    if TOC_CTRL (tocEntry toc (i - 1)) = 4 then TOC_LBA (tocEntry toc (i - 1))
    else scanDown toc firstT (i - 1)
  else 0
termination_by i
decreasing_by omega

/-- cdrom_locate_data_track (lines 285-301): extract the first/last track
numbers, reject malformed TOCs, otherwise scan from last down to first for a
control-nibble-4 entry. -/
def cdrom_locate_data_track (toc : cd_toc) : Nat :=
  let firstT := TOC_TRACK toc.first
  let lastT := TOC_TRACK toc.last
  if firstT < 1 ∨ lastT > 99 ∨ firstT > lastT then 0
  else scanDown toc firstT lastT

/-! ### cdrom_cdda_play (cdrom.c lines 304-321) -/

/-- cdrom_cdda_play (lines 304-321): clamp the repeat count to 15, build the
play-parameter block and submit it with CMD_PLAY (track mode) or CMD_PLAY2
(sector mode); any other mode is rejected with CD_ERR_SYS.  The submission
of the finished cycle is abstracted as the function `exec` from (command
code, parameter block) to the cycle's classified outcome. -/
def cdrom_cdda_play (exec : Int → cd_cmd_play_params → Int)
    (start end_sec repeat_cnt : Nat) (mode : Int) : Int :=
  let rep := if repeat_cnt > 15 then 15 else repeat_cnt
  let params : cd_cmd_play_params := ⟨start, end_sec, rep⟩
  if mode = CDDA_TRACKS then exec CMD_PLAY params
  else if mode = CDDA_SECTORS then exec CMD_PLAY2 params
  else CD_ERR_SYS

/-! ### Lock interleaving model (for the drive gate)

Modelled from the spec: the mutex primitives (kos/mutex.h) are not part of
this module; per the spec the Drive Gate offers a blocking acquire that
succeeds only while the gate is free and a release performed by the holder.
A run of two callers is an interleaved sequence of (thread, event) pairs;
`lockOk` checks that every lock event respects mutex semantics, tracking the
current owner. -/
def isLockEv : GdEv → Bool
  | GdEv.lockAcq => true
  | GdEv.lockRel => true
  | _ => false

/-- Events of one thread inside an interleaved run. -/
def projEv (th : Bool) : List (Bool × GdEv) → List GdEv
  | [] => []
  | (th', e) :: s => if th' == th then e :: projEv th s else projEv th s

/-- One step of the mutex-owner state machine: `none` means the step is not
permitted (an acquire while held blocks; only the owner may release). -/
def lockStep (o : Option Bool) (th : Bool) (e : GdEv) : Option (Option Bool) :=
  match e with
  | GdEv.lockAcq => match o with
    | none => some (some th)
    | some _ => none
  | GdEv.lockRel => match o with
    | some h => if h == th then some none else none
    | none => none
  | _ => some o

/-- A run is lock-valid from owner state `o` when every step is permitted. -/
def lockOk (o : Option Bool) : List (Bool × GdEv) → Bool
  | [] => true
  | (th, e) :: s =>
    match lockStep o th e with
    | none => false
    | some o' => lockOk o' s

/-! ### Claim C1: the Result Classifier -/

/-- C1: for every terminal completion of a polled command cycle the
classifier of cdrom_exec_cmd_timed maps completed and streaming to
CD_ERR_OK, not-found to CD_ERR_NO_ACTIVE, and every other terminal status
according to the primary error code (2 to CD_ERR_NO_DISC, 6 to
CD_ERR_DISC_CHG, anything else to CD_ERR_SYS); the outcome depends only on
the terminal status and err1, never on err2 (nor the other status
fields). -/
theorem c1_result_classifier (n : Int) (st st' : cd_cmd_chk_status)
    (_hterm : n ≠ CD_CMD_PROCESSING ∧ n ≠ CD_CMD_BUSY) :
    classify CD_CMD_COMPLETED st = CD_ERR_OK ∧
    classify CD_CMD_STREAMING st = CD_ERR_OK ∧
    classify CD_CMD_NOT_FOUND st = CD_ERR_NO_ACTIVE ∧
    (n ≠ CD_CMD_COMPLETED → n ≠ CD_CMD_STREAMING → n ≠ CD_CMD_NOT_FOUND →
      classify n st =
        (if st.err1 = 2 then CD_ERR_NO_DISC
         else if st.err1 = 6 then CD_ERR_DISC_CHG
         else CD_ERR_SYS)) ∧
    (st.err1 = st'.err1 → classify n st = classify n st') := by
  refine ⟨by simp [classify], by simp [classify], ?_, ?_, ?_⟩
  · simp [classify, CD_CMD_NOT_FOUND, CD_CMD_COMPLETED, CD_CMD_STREAMING]
  · intro h1 h2 h3
    simp [classify, h1, h2, h3]
  · intro h
    simp [classify, h]

/-- Witness for C1 at a concrete failed status with err1 = 2. -/
theorem c1_result_classifier_witness :
    ((CD_CMD_FAILED ≠ CD_CMD_PROCESSING ∧ CD_CMD_FAILED ≠ CD_CMD_BUSY) ∧
      (⟨2, 0, 0, 0⟩ : cd_cmd_chk_status).err1 = (⟨2, 9, 8, 7⟩ : cd_cmd_chk_status).err1) ∧
    classify CD_CMD_FAILED (⟨2, 0, 0, 0⟩ : cd_cmd_chk_status) =
      classify CD_CMD_FAILED (⟨2, 9, 8, 7⟩ : cd_cmd_chk_status) :=
  ⟨⟨by decide, by decide⟩,
    (c1_result_classifier CD_CMD_FAILED ⟨2, 0, 0, 0⟩ ⟨2, 9, 8, 7⟩ (by decide)).2.2.2.2 (by decide)⟩

/-! ### Claim C5: default resolution in cdrom_change_datatype -/

/-- C5: with sector size 2352, default track type resolves to
CD_TRACK_TYPE_ANY and default sector part to CD_READ_WHOLE_SECTOR; with any
other sector size, default track type resolves from the drive's reported
disc type (CD-ROM XA to mode2-form1, otherwise mode1), default sector part
to CD_READ_DATA_AREA, size -1 to 2048; in both cases the resolved triple is
sent to the set-mode syscall with RW = 0 and its return value is passed
through unchanged. -/
theorem c5_change_datatype (env : DatatypeEnv) (sector_part track_type sector_size : Int) :
    (cdrom_change_datatype env sector_part track_type 2352 =
      env.sector_mode
        ⟨0, if sector_part = CD_READ_DEFAULT then CD_READ_WHOLE_SECTOR else sector_part,
         if track_type = CD_TRACK_TYPE_DEFAULT then CD_TRACK_TYPE_ANY else track_type,
         2352⟩) ∧
    (sector_size ≠ 2352 →
      cdrom_change_datatype env sector_part track_type sector_size =
        env.sector_mode
          ⟨0, if sector_part = CD_READ_DEFAULT then CD_READ_DATA_AREA else sector_part,
           if track_type = CD_TRACK_TYPE_DEFAULT then
             (if env.check_drive.disc_type = CD_CDROM_XA then CD_TRACK_TYPE_MODE2_FORM1
              else CD_TRACK_TYPE_MODE1)
           else track_type,
           if sector_size = -1 then 2048 else sector_size⟩) := by
  constructor
  · simp [cdrom_change_datatype, resolve_triple]
  · intro h
    simp [cdrom_change_datatype, resolve_triple, h]

/-- Witness for C5: fully default parameters on a CD-ROM XA disc resolve to
(data area, mode2-form1, 2048). -/
theorem c5_change_datatype_witness :
    ((-1 : Int) ≠ 2352) ∧
    cdrom_change_datatype ⟨⟨0, CD_CDROM_XA⟩, fun p => p.track_type⟩ (-1) (-1) (-1) =
      CD_TRACK_TYPE_MODE2_FORM1 :=
  ⟨by decide, by
    have h := (c5_change_datatype ⟨⟨0, CD_CDROM_XA⟩, fun p => p.track_type⟩
      (-1) (-1) (-1)).2 (by decide)
    simpa [CD_READ_DEFAULT, CD_TRACK_TYPE_DEFAULT, CD_CDROM_XA] using h⟩

/-! ### Claim C7: idempotence of fully specified negotiation -/

/-- C7: resolving (CD_READ_WHOLE_SECTOR, CD_TRACK_TYPE_ANY, 2352) yields the
identical triple on any two calls, independent of the drive state the
environment reports, and that triple is the input itself. -/
theorem c7_datatype_idempotent (e1 e2 : DatatypeEnv) :
    resolve_triple e1 CD_READ_WHOLE_SECTOR CD_TRACK_TYPE_ANY 2352 =
      resolve_triple e2 CD_READ_WHOLE_SECTOR CD_TRACK_TYPE_ANY 2352 ∧
    resolve_triple e1 CD_READ_WHOLE_SECTOR CD_TRACK_TYPE_ANY 2352 =
      (CD_READ_WHOLE_SECTOR, CD_TRACK_TYPE_ANY, 2352) := by
  constructor <;>
    simp [resolve_triple, CD_READ_WHOLE_SECTOR, CD_TRACK_TYPE_ANY, CD_READ_DEFAULT,
      CD_TRACK_TYPE_DEFAULT]

/-! ### Claim C9: status query with the gate already held -/

/-- C9: when the non-blocking acquire of the drive gate fails (the gate is
already held), cdrom_get_status returns -1 immediately: no
syscall_gdrom_check_drive call is made (call count 0), nothing is written
through either out-pointer, and the result does not depend on the fuel
(no blocking/looping). -/
theorem c9_get_status_gate_held (env : GetStatusEnv) (status_null disc_null : Bool)
    (fuel : Nat) (h : env.lock_fail = true) :
    cdrom_get_status env status_null disc_null fuel = some (-1, none, none, 0) := by
  simp [cdrom_get_status, h]

/-- Witness for C9 at a concrete held-gate environment. -/
theorem c9_get_status_gate_held_witness :
    (GetStatusEnv.lock_fail ⟨true, fun _ => (0, ⟨0, 0⟩)⟩ = true) ∧
    cdrom_get_status ⟨true, fun _ => (0, ⟨0, 0⟩)⟩ false false 5 = some (-1, none, none, 0) :=
  ⟨rfl, c9_get_status_gate_held ⟨true, fun _ => (0, ⟨0, 0⟩)⟩ false false 5 rfl⟩

/-! ### Claim C10: CDDA repeat clamping -/

/-- C10: for a valid mode, cdrom_cdda_play submits CMD_PLAY (track mode) or
CMD_PLAY2 (sector mode) with start and end passed through unchanged and the
repeat count clamped to min(repeat, 15). -/
theorem c10_cdda_play_clamp (exec : Int → cd_cmd_play_params → Int)
    (start end_sec repeat_cnt : Nat) (mode : Int)
    (hmode : mode = CDDA_TRACKS ∨ mode = CDDA_SECTORS) :
    cdrom_cdda_play exec start end_sec repeat_cnt mode =
      exec (if mode = CDDA_TRACKS then CMD_PLAY else CMD_PLAY2)
        ⟨start, end_sec, min repeat_cnt 15⟩ := by
  have hrep : (if repeat_cnt > 15 then 15 else repeat_cnt) = min repeat_cnt 15 := by
    split <;> omega
  rcases hmode with h | h <;> subst h <;>
    simp [cdrom_cdda_play, CDDA_TRACKS, CDDA_SECTORS, hrep]

/-- Witness for C10: repeat 99 is clamped to 15 in track mode. -/
theorem c10_cdda_play_clamp_witness :
    (CDDA_TRACKS = CDDA_TRACKS ∨ CDDA_TRACKS = CDDA_SECTORS) ∧
    cdrom_cdda_play (fun (_ : Int) (p : cd_cmd_play_params) => (p.repeat_cnt : Int)) 1 2 99 CDDA_TRACKS =
      (fun (_ : Int) (p : cd_cmd_play_params) => (p.repeat_cnt : Int))
        (if CDDA_TRACKS = CDDA_TRACKS then CMD_PLAY else CMD_PLAY2)
        ⟨1, 2, min 99 15⟩ :=
  ⟨Or.inl rfl, c10_cdda_play_clamp (fun (_ : Int) (p : cd_cmd_play_params) => (p.repeat_cnt : Int)) 1 2 99 CDDA_TRACKS
    (Or.inl rfl)⟩

/-! ### Claim C6: TOC data track location -/

set_option maxRecDepth 4000 in
/-- Backward scan: if M is the highest index in [firstT, i] whose entry has
control nibble 4, the scan returns that entry's disc address. -/
lemma scanDown_hit (toc : cd_toc) (firstT M : Nat) (h1 : 1 ≤ firstT) :
    ∀ i, firstT ≤ M → M ≤ i →
      TOC_CTRL (tocEntry toc (M - 1)) = 4 →
      (∀ j, M < j → j ≤ i → TOC_CTRL (tocEntry toc (j - 1)) ≠ 4) →
      scanDown toc firstT i = TOC_LBA (tocEntry toc (M - 1)) := by
  intro i
  induction i using Nat.strong_induction_on with
  | _ i ih =>
    intro hfM hMi hM hnone
    rw [scanDown]
    rw [dif_pos ⟨h1, le_trans hfM hMi⟩]
    by_cases hc : TOC_CTRL (tocEntry toc (i - 1)) = 4
    · rw [if_pos hc]
      have : i = M := by
        by_contra hne
        exact hnone i (lt_of_le_of_ne hMi (fun h => hne h.symm)) le_rfl hc
      rw [this]
    · rw [if_neg hc]
      have hiM : M < i := lt_of_le_of_ne hMi (by
        intro h
        exact hc (h ▸ hM))
      have hi1 : i - 1 < i := by omega
      exact ih (i - 1) hi1 hfM (by omega) hM (fun j hj1 hj2 => hnone j hj1 (by omega))

set_option maxRecDepth 4000 in
/-- Backward scan: if no entry in [firstT, i] has control nibble 4, the scan
returns 0. -/
lemma scanDown_miss (toc : cd_toc) (firstT : Nat) (h1 : 1 ≤ firstT) :
    ∀ i, (∀ j, firstT ≤ j → j ≤ i → TOC_CTRL (tocEntry toc (j - 1)) ≠ 4) →
      scanDown toc firstT i = 0 := by
  intro i
  induction i using Nat.strong_induction_on with
  | _ i ih =>
    intro hnone
    rw [scanDown]
    by_cases hfi : firstT ≤ i
    · rw [dif_pos ⟨h1, hfi⟩]
      rw [if_neg (hnone i hfi le_rfl)]
      by_cases hlt : firstT ≤ i - 1
      · exact ih (i - 1) (by omega) (fun j hj1 hj2 => hnone j hj1 (by omega))
      · rw [scanDown, dif_neg (by omega)]
    · rw [dif_neg (by omega)]

/-- C6: a TOC whose extracted first track is below 1, last track above 99 or
first above last is rejected with 0 regardless of the entries; for a
well-formed TOC, if M is the highest track in [first, last] whose entry has
control nibble 4 the locator returns that entry's TOC_LBA disc address, and
if no track in [first, last] has control nibble 4 it returns 0. -/
theorem c6_locate_data_track (tocm toc toc2 : cd_toc) (M : Nat) :
    ((TOC_TRACK tocm.first < 1 ∨ TOC_TRACK tocm.last > 99 ∨
        TOC_TRACK tocm.first > TOC_TRACK tocm.last) →
      cdrom_locate_data_track tocm = 0) ∧
    (1 ≤ TOC_TRACK toc.first → TOC_TRACK toc.last ≤ 99 →
      TOC_TRACK toc.first ≤ TOC_TRACK toc.last →
      TOC_TRACK toc.first ≤ M → M ≤ TOC_TRACK toc.last →
      TOC_CTRL (tocEntry toc (M - 1)) = 4 →
      (∀ j, M < j → j ≤ TOC_TRACK toc.last → TOC_CTRL (tocEntry toc (j - 1)) ≠ 4) →
      cdrom_locate_data_track toc = TOC_LBA (tocEntry toc (M - 1))) ∧
    (1 ≤ TOC_TRACK toc2.first → TOC_TRACK toc2.last ≤ 99 →
      TOC_TRACK toc2.first ≤ TOC_TRACK toc2.last →
      (∀ j, TOC_TRACK toc2.first ≤ j → j ≤ TOC_TRACK toc2.last →
        TOC_CTRL (tocEntry toc2 (j - 1)) ≠ 4) →
      cdrom_locate_data_track toc2 = 0) := by
  refine ⟨?_, ?_, ?_⟩
  · intro h
    rw [cdrom_locate_data_track, if_pos h]
  · intro hf hl hfl hfM hMl hM hnone
    rw [cdrom_locate_data_track, if_neg (by omega)]
    exact scanDown_hit toc (TOC_TRACK toc.first) M hf (TOC_TRACK toc.last) hfM hMl hM hnone
  · intro hf hl hfl hnone
    rw [cdrom_locate_data_track, if_neg (by omega)]
    exact scanDown_miss toc2 (TOC_TRACK toc2.first) hf (TOC_TRACK toc2.last) hnone

/-- Example TOC of the spec: tracks 1..3, control nibbles [0,4,4], disc
addresses [100,200,300]. -/
def tocExample : cd_toc :=
  ⟨fun j => if (j : Nat) = 1 then 0x400000C8 else if (j : Nat) = 2 then 0x4000012C else 0x64,
   0x00010000, 0x00030000, 0⟩

/-- Malformed TOC: first-track pointer decodes to track 0, last to 150. -/
def tocMalformed : cd_toc := ⟨fun _ => 0x4000012C, 0, 0x00960000, 0⟩

/-- TOC with three audio tracks (no control nibble 4 anywhere). -/
def tocAudio : cd_toc := ⟨fun _ => 0x64, 0x00010000, 0x00030000, 0⟩

/-- Witness for C6 on the three concrete TOCs. -/
theorem c6_locate_data_track_witness :
    (TOC_TRACK tocMalformed.first < 1 ∨ TOC_TRACK tocMalformed.last > 99 ∨
      TOC_TRACK tocMalformed.first > TOC_TRACK tocMalformed.last) ∧
    TOC_CTRL (tocEntry tocExample 2) = 4 ∧
    cdrom_locate_data_track tocMalformed = 0 ∧
    cdrom_locate_data_track tocExample = 300 ∧
    cdrom_locate_data_track tocAudio = 0 := by
  refine ⟨by decide, by decide, ?_, ?_, ?_⟩
  · exact (c6_locate_data_track tocMalformed tocExample tocAudio 3).1 (by decide)
  · have h := (c6_locate_data_track tocMalformed tocExample tocAudio 3).2.1
      (by decide) (by decide) (by decide) (by decide) (by decide) (by decide)
      (fun j hj1 hj2 => by
        have e2 : TOC_TRACK tocAudio.last = 3 := by decide
        have e3 : TOC_TRACK tocExample.last = 3 := by decide
        rw [e3] at hj2
        intro _
        omega)
    rw [h]
    decide
  · exact (c6_locate_data_track tocMalformed tocExample tocAudio 3).2.2
      (by decide) (by decide) (by decide)
      (fun j hj1 hj2 => by
        have e1 : TOC_TRACK tocAudio.first = 1 := by decide
        have e2 : TOC_TRACK tocAudio.last = 3 := by decide
        rw [e1] at hj1
        rw [e2] at hj2
        interval_cases j <;> decide)

/-! ### Claim C3: bounded submission retry -/

/-- Every event in a submission-loop trace is a send, tick or yield. -/
lemma sendLoop_mem (env : GdEnv) (cmd : Int) :
    ∀ r i e, e ∈ (sendLoop env cmd i r).2 →
      e = GdEv.send ∨ e = GdEv.tick ∨ e = GdEv.yield := by
  intro r
  induction r with
  | zero =>
    intro i e h
    simp [sendLoop] at h
  | succ n ih =>
    intro i e h
    by_cases hc : env.send i cmd = 0
    · simp [sendLoop, hc] at h
      rcases h with h | h | h | h
      · exact Or.inl h
      · exact Or.inr (Or.inl h)
      · exact Or.inr (Or.inr h)
      · exact ih (i + 1) e h
    · simp [sendLoop, hc] at h
      exact Or.inl h

/-- Every event in a poll-loop trace is a tick, check, yield or abort. -/
lemma pollLoop_mem (env : GdEnv) (timeout : Nat) :
    ∀ fuel k e, e ∈ (pollLoop env timeout k fuel).2 →
      e = GdEv.tick ∨ e = GdEv.check ∨ e = GdEv.yield ∨ e = GdEv.abort := by
  intro fuel
  induction fuel with
  | zero =>
    intro k e h
    simp [pollLoop] at h
  | succ n ih =>
    intro k e h
    by_cases h1 : (env.chk k).1 ≠ CD_CMD_PROCESSING ∧ (env.chk k).1 ≠ CD_CMD_BUSY
    · simp [pollLoop, h1] at h
      rcases h with h | h
      · exact Or.inl h
      · exact Or.inr (Or.inl h)
    · by_cases h2 : timeout ≠ 0 ∧ timeout ≤ u64_sub (env.time (k + 1)) (env.time 0)
      · simp [pollLoop, h1, h2] at h
        rcases h with h | h | h | h
        · exact Or.inl h
        · exact Or.inr (Or.inl h)
        · exact Or.inr (Or.inr (Or.inr h))
        · exact Or.inl h
      · simp [pollLoop, h1, h2] at h
        rcases h with h | h | h | h
        · exact Or.inl h
        · exact Or.inr (Or.inl h)
        · exact Or.inr (Or.inr (Or.inl h))
        · exact ih (k + 1) e h

/-- The submission loop makes at most `r` send attempts. -/
lemma sendLoop_count_send (env : GdEnv) (cmd : Int) :
    ∀ r i, (sendLoop env cmd i r).2.count GdEv.send ≤ r := by
  intro r
  induction r with
  | zero => intro i; simp [sendLoop]
  | succ n ih =>
    intro i
    by_cases hc : env.send i cmd = 0
    · have := ih (i + 1)
      simp [sendLoop, hc, List.count_cons]
      omega
    · simp [sendLoop, hc, List.count_cons]

/-- A poll-loop trace contains no send event. -/
lemma pollLoop_count_send (env : GdEnv) (timeout : Nat) (fuel k : Nat) :
    (pollLoop env timeout k fuel).2.count GdEv.send = 0 := by
  refine List.count_eq_zero.mpr (fun h => ?_)
  rcases pollLoop_mem env timeout fuel k GdEv.send h with h' | h' | h' | h' <;> simp at h'

/-- A submission-loop trace contains no check event. -/
lemma sendLoop_count_check (env : GdEnv) (cmd : Int) (r i : Nat) :
    (sendLoop env cmd i r).2.count GdEv.check = 0 := by
  refine List.count_eq_zero.mpr (fun h => ?_)
  rcases sendLoop_mem env cmd r i GdEv.check h with h' | h' | h' <;> simp at h'

/-- If every one of the `r` attempts fails, the submission loop returns
handle 0 with the full retry trace. -/
lemma sendLoop_all_zero (env : GdEnv) (cmd : Int) :
    ∀ r i, (∀ x, x < r → env.send (i + x) cmd = 0) →
      sendLoop env cmd i r =
        (0, (List.replicate r [GdEv.send, GdEv.tick, GdEv.yield]).flatten) := by
  intro r
  induction r with
  | zero => intro i _; simp [sendLoop]
  | succ n ih =>
    intro i hz
    have h0 : env.send i cmd = 0 := by
      have := hz 0 (Nat.succ_pos n)
      simpa using this
    have hrest := ih (i + 1) (fun x hx => by
      have := hz (x + 1) (by omega)
      simpa [Nat.add_assoc, Nat.add_comm 1 x] using this)
    simp [sendLoop, h0, hrest, List.replicate_succ]

/-- If the first j attempts fail and attempt j succeeds (j < r), the
submission loop returns that handle after exactly j+1 send events. -/
lemma sendLoop_first_nonzero (env : GdEnv) (cmd : Int) :
    ∀ j i r, j < r → (∀ x, x < j → env.send (i + x) cmd = 0) → env.send (i + j) cmd ≠ 0 →
      sendLoop env cmd i r =
        (env.send (i + j) cmd,
         (List.replicate j [GdEv.send, GdEv.tick, GdEv.yield]).flatten ++ [GdEv.send]) := by
  intro j
  induction j with
  | zero =>
    intro i r hr _ hnz
    obtain ⟨r', rfl⟩ : ∃ r', r = r' + 1 := ⟨r - 1, by omega⟩
    simp only [Nat.add_zero] at hnz
    simp [sendLoop, hnz]
  | succ n ih =>
    intro i r hr hz hnz
    obtain ⟨r', rfl⟩ : ∃ r', r = r' + 1 := ⟨r - 1, by omega⟩
    have h0 : env.send i cmd = 0 := by
      have := hz 0 (Nat.succ_pos n)
      simpa using this
    have hrest := ih (i + 1) r' (by omega)
      (fun x hx => by
        have := hz (x + 1) (by omega)
        simpa [Nat.add_assoc, Nat.add_comm 1 x] using this)
      (by
        have : i + 1 + n = i + (n + 1) := by omega
        rw [this]
        exact hnz)
    have harg : i + 1 + n = i + (n + 1) := by omega
    simp [sendLoop, h0, hrest, harg, List.replicate_succ]

/-- Count of send events in the full-retry trace. -/
lemma count_join_replicate_send (r : Nat) :
    ((List.replicate r [GdEv.send, GdEv.tick, GdEv.yield]).flatten).count GdEv.send = r := by
  induction r with
  | zero => simp
  | succ n ih => simp [List.replicate_succ, ih, List.count_cons]

/-- C3: a command cycle attempts syscall_gdrom_send_command at most
CD_CMD_RETRY_MAX (10) times; if all 10 attempts return 0 the cycle returns
CD_ERR_SYS having made no syscall_gdrom_check_command call at all (10 send
events, 0 check events); and while attempts return 0 the loop retries with a
tick and a yield between attempts, stopping at the first nonzero handle
(first success at attempt j gives exactly j full retry rounds then the
final send). -/
theorem c3_submission_retry (env envA envB : GdEnv) (cmd : Int) (timeout fuel j : Nat) :
    ((cdrom_exec_cmd_timed env cmd timeout fuel).2.count GdEv.send ≤ CD_CMD_RETRY_MAX) ∧
    ((∀ i, i < CD_CMD_RETRY_MAX → envA.send i cmd = 0) →
      (cdrom_exec_cmd_timed envA cmd timeout fuel).1 = some CD_ERR_SYS ∧
      (cdrom_exec_cmd_timed envA cmd timeout fuel).2.count GdEv.check = 0 ∧
      (cdrom_exec_cmd_timed envA cmd timeout fuel).2.count GdEv.send = CD_CMD_RETRY_MAX) ∧
    (j < CD_CMD_RETRY_MAX → (∀ i, i < j → envB.send i cmd = 0) → envB.send j cmd ≠ 0 →
      sendLoop envB cmd 0 CD_CMD_RETRY_MAX =
        (envB.send j cmd,
         (List.replicate j [GdEv.send, GdEv.tick, GdEv.yield]).flatten ++ [GdEv.send])) := by
  refine ⟨?_, ?_, ?_⟩
  · have hs := sendLoop_count_send env cmd CD_CMD_RETRY_MAX 0
    have hp := pollLoop_count_send env timeout fuel 0
    simp only [cdrom_exec_cmd_timed]
    split
    · simp [List.count_cons, List.count_append]
      omega
    · split
      · simp [List.count_cons, List.count_append, hp]
        omega
      · simp [List.count_cons, List.count_append, hp]
        omega
  · intro hz
    have hsl := sendLoop_all_zero envA cmd CD_CMD_RETRY_MAX 0 (fun x hx => by
      have := hz x hx
      simpa using this)
    have hchk : ((List.replicate CD_CMD_RETRY_MAX
        [GdEv.send, GdEv.tick, GdEv.yield]).flatten).count GdEv.check = 0 := by
      have := sendLoop_count_check envA cmd CD_CMD_RETRY_MAX 0
      rw [hsl] at this
      exact this
    refine ⟨?_, ?_, ?_⟩
    · simp [cdrom_exec_cmd_timed, hsl]
    · simp [cdrom_exec_cmd_timed, hsl, List.count_cons, List.count_append, hchk]
    · simp [cdrom_exec_cmd_timed, hsl, List.count_cons, List.count_append,
        count_join_replicate_send]
  · intro hj hz hnz
    have := sendLoop_first_nonzero envB cmd j 0 CD_CMD_RETRY_MAX hj
      (fun x hx => by simpa using hz x hx) (by simpa using hnz)
    simpa using this

/-- Witness for C3: an environment whose sends always fail, and one whose
attempt 2 is the first success. -/
theorem c3_submission_retry_witness :
    (∀ i, i < CD_CMD_RETRY_MAX →
      GdEnv.send ⟨fun _ _ => 0, fun _ => (CD_CMD_COMPLETED, ⟨0, 0, 0, 0⟩), fun _ => 0⟩ i 24 = 0) ∧
    (cdrom_exec_cmd_timed ⟨fun _ _ => 0, fun _ => (CD_CMD_COMPLETED, ⟨0, 0, 0, 0⟩), fun _ => 0⟩
        24 0 1).1 = some CD_ERR_SYS ∧
    ((2 : Nat) < CD_CMD_RETRY_MAX) ∧
    sendLoop ⟨fun i _ => if i < 2 then 0 else 7, fun _ => (CD_CMD_COMPLETED, ⟨0, 0, 0, 0⟩),
        fun _ => 0⟩ 24 0 CD_CMD_RETRY_MAX =
      (7, (List.replicate 2 [GdEv.send, GdEv.tick, GdEv.yield]).flatten ++ [GdEv.send]) := by
  refine ⟨fun i _ => rfl, ?_, by decide, ?_⟩
  · exact ((c3_submission_retry
      ⟨fun _ _ => 0, fun _ => (CD_CMD_COMPLETED, ⟨0, 0, 0, 0⟩), fun _ => 0⟩
      ⟨fun _ _ => 0, fun _ => (CD_CMD_COMPLETED, ⟨0, 0, 0, 0⟩), fun _ => 0⟩
      ⟨fun i _ => if i < 2 then 0 else 7, fun _ => (CD_CMD_COMPLETED, ⟨0, 0, 0, 0⟩), fun _ => 0⟩
      24 0 1 2).2.1 (fun i _ => rfl)).1
  · have h := (c3_submission_retry
      ⟨fun _ _ => 0, fun _ => (CD_CMD_COMPLETED, ⟨0, 0, 0, 0⟩), fun _ => 0⟩
      ⟨fun _ _ => 0, fun _ => (CD_CMD_COMPLETED, ⟨0, 0, 0, 0⟩), fun _ => 0⟩
      ⟨fun i _ => if i < 2 then 0 else 7, fun _ => (CD_CMD_COMPLETED, ⟨0, 0, 0, 0⟩), fun _ => 0⟩
      24 0 1 2).2.2 (by decide) (fun i hi => by interval_cases i <;> rfl) (by decide)
    simpa using h

/-! ### Claim C2: poll-loop timeout behavior -/

/-- The classifier never produces the timeout outcome; CD_ERR_TIMEOUT comes
only from the poller's own abort path. -/
lemma classify_ne_timeout (n : Int) (st : cd_cmd_chk_status) :
    classify n st ≠ CD_ERR_TIMEOUT := by
  simp only [classify]
  split_ifs <;> decide

/-- A submission-loop trace contains no abort event. -/
lemma sendLoop_count_abort (env : GdEnv) (cmd : Int) (r i : Nat) :
    (sendLoop env cmd i r).2.count GdEv.abort = 0 := by
  refine List.count_eq_zero.mpr (fun h => ?_)
  rcases sendLoop_mem env cmd r i GdEv.abort h with h' | h' | h' <;> simp at h'

/-- With a nonzero budget and a never-terminal status stream, the poll loop
starting at iteration k returns CD_ERR_TIMEOUT at the first timer read whose
elapsed value reaches the budget (read k+d+1), having made exactly d+1
checks and issuing the abort followed by one final tick. -/
lemma pollLoop_timeout (env : GdEnv) (T : Nat) (hT : T ≠ 0)
    (hnt : ∀ k, (env.chk k).1 = CD_CMD_PROCESSING ∨ (env.chk k).1 = CD_CMD_BUSY) :
    ∀ d k fuel, (∀ j, k < j → j < k + d + 1 → u64_sub (env.time j) (env.time 0) < T) →
      T ≤ u64_sub (env.time (k + d + 1)) (env.time 0) → d + 1 ≤ fuel →
      ∃ u, pollLoop env T k fuel = (some CD_ERR_TIMEOUT, u ++ [GdEv.abort, GdEv.tick]) ∧
        u.count GdEv.abort = 0 ∧ u.count GdEv.check = d + 1 := by
  intro d
  induction d with
  | zero =>
    intro k fuel _ hge hfuel
    obtain ⟨f, rfl⟩ : ∃ f, fuel = f + 1 := ⟨fuel - 1, by omega⟩
    have hcond : ¬((env.chk k).1 ≠ CD_CMD_PROCESSING ∧ (env.chk k).1 ≠ CD_CMD_BUSY) := by
      rcases hnt k with h | h
      · exact fun hC => hC.1 h
      · exact fun hC => hC.2 h
    have htime : T ≠ 0 ∧ T ≤ u64_sub (env.time (k + 1)) (env.time 0) := ⟨hT, by
      have := hge
      simpa using this⟩
    refine ⟨[GdEv.tick, GdEv.check], ?_, by decide, by decide⟩
    rw [pollLoop, if_neg hcond, if_pos htime]
    rfl
  | succ n ih =>
    intro k fuel hlt hge hfuel
    obtain ⟨f, rfl⟩ : ∃ f, fuel = f + 1 := ⟨fuel - 1, by omega⟩
    have hcond : ¬((env.chk k).1 ≠ CD_CMD_PROCESSING ∧ (env.chk k).1 ≠ CD_CMD_BUSY) := by
      rcases hnt k with h | h
      · exact fun hC => hC.1 h
      · exact fun hC => hC.2 h
    have htime : ¬(T ≠ 0 ∧ T ≤ u64_sub (env.time (k + 1)) (env.time 0)) := by
      intro hC
      have := hlt (k + 1) (by omega) (by omega)
      omega
    obtain ⟨u, hp, hua, huc⟩ := ih (k + 1) f
      (fun j hj1 hj2 => hlt j (by omega) (by omega))
      (by
        have : k + 1 + n + 1 = k + (n + 1) + 1 := by omega
        rw [this]
        exact hge)
      (by omega)
    refine ⟨GdEv.tick :: GdEv.check :: GdEv.yield :: u, ?_, ?_, ?_⟩
    · rw [pollLoop, if_neg hcond, if_neg htime]
      simp [hp]
    · simp [List.count_cons, hua]
    · simp [List.count_cons, huc]

/-- With budget 0 and a never-terminal status stream the poll loop never
returns, whatever the fuel. -/
lemma pollLoop_zero_none (env : GdEnv)
    (hnt : ∀ k, (env.chk k).1 = CD_CMD_PROCESSING ∨ (env.chk k).1 = CD_CMD_BUSY) :
    ∀ fuel k, (pollLoop env 0 k fuel).1 = none := by
  intro fuel
  induction fuel with
  | zero => intro k; rfl
  | succ n ih =>
    intro k
    have hcond : ¬((env.chk k).1 ≠ CD_CMD_PROCESSING ∧ (env.chk k).1 ≠ CD_CMD_BUSY) := by
      rcases hnt k with h | h
      · exact fun hC => hC.1 h
      · exact fun hC => hC.2 h
    rw [pollLoop, if_neg hcond, if_neg (by simp)]
    exact ih (k + 1)

/-- With budget 0 the poll loop never aborts and never produces the timeout
outcome, for any environment and fuel. -/
lemma pollLoop_zero_no_abort (env : GdEnv) :
    ∀ fuel k, (pollLoop env 0 k fuel).2.count GdEv.abort = 0 ∧
      (pollLoop env 0 k fuel).1 ≠ some CD_ERR_TIMEOUT := by
  intro fuel
  induction fuel with
  | zero => intro k; exact ⟨rfl, by simp [pollLoop]⟩
  | succ n ih =>
    intro k
    by_cases h1 : (env.chk k).1 ≠ CD_CMD_PROCESSING ∧ (env.chk k).1 ≠ CD_CMD_BUSY
    · rw [pollLoop, if_pos h1]
      exact ⟨by simp, by simp [classify_ne_timeout]⟩
    · rw [pollLoop, if_neg h1, if_neg (by simp)]
      have := ih (k + 1)
      exact ⟨by simp [List.count_cons, this.1], by simpa using this.2⟩

/-- C2: with a nonzero budget T, a successful submission and a status stream
that never turns terminal, cdrom_exec_cmd_timed returns CD_ERR_TIMEOUT at
the first timer read whose elapsed time reaches T (read K, i.e. within one
tick-and-check cycle of the budget expiring), makes exactly K checks, and
issues exactly one abort, followed by one final tick, before releasing the
gate; with budget 0 it never aborts, never returns CD_ERR_TIMEOUT, and
(under a never-terminal stream) polls forever. -/
theorem c2_poll_timeout_behavior (env : GdEnv) (cmd : Int) (T K fuel : Nat) :
    (T ≠ 0 → 0 < (sendLoop env cmd 0 CD_CMD_RETRY_MAX).1 →
      (∀ k, (env.chk k).1 = CD_CMD_PROCESSING ∨ (env.chk k).1 = CD_CMD_BUSY) →
      1 ≤ K → (∀ j, 1 ≤ j → j < K → u64_sub (env.time j) (env.time 0) < T) →
      T ≤ u64_sub (env.time K) (env.time 0) → K ≤ fuel →
      (cdrom_exec_cmd_timed env cmd T fuel).1 = some CD_ERR_TIMEOUT ∧
      (cdrom_exec_cmd_timed env cmd T fuel).2.count GdEv.abort = 1 ∧
      (cdrom_exec_cmd_timed env cmd T fuel).2.count GdEv.check = K ∧
      ∃ u, (cdrom_exec_cmd_timed env cmd T fuel).2 =
        u ++ [GdEv.abort, GdEv.tick, GdEv.lockRel]) ∧
    (0 < (sendLoop env cmd 0 CD_CMD_RETRY_MAX).1 →
      (∀ k, (env.chk k).1 = CD_CMD_PROCESSING ∨ (env.chk k).1 = CD_CMD_BUSY) →
      (cdrom_exec_cmd_timed env cmd 0 fuel).1 = none) ∧
    ((cdrom_exec_cmd_timed env cmd 0 fuel).2.count GdEv.abort = 0 ∧
      (cdrom_exec_cmd_timed env cmd 0 fuel).1 ≠ some CD_ERR_TIMEOUT) := by
  refine ⟨?_, ?_, ?_⟩
  · intro hT hid hnt hK hlt hge hfuel
    obtain ⟨d, rfl⟩ : ∃ d, K = d + 1 := ⟨K - 1, by omega⟩
    obtain ⟨u, hp, hua, huc⟩ := pollLoop_timeout env T hT hnt d 0 fuel
      (fun j hj1 hj2 => hlt j (by omega) (by omega))
      (by simpa using hge) (by omega)
    have hns : ¬(sendLoop env cmd 0 CD_CMD_RETRY_MAX).1 ≤ 0 := by omega
    have hsa := sendLoop_count_abort env cmd CD_CMD_RETRY_MAX 0
    have hsc := sendLoop_count_check env cmd CD_CMD_RETRY_MAX 0
    refine ⟨?_, ?_, ?_, ?_⟩
    · simp [cdrom_exec_cmd_timed, hns, hp]
    · simp [cdrom_exec_cmd_timed, hns, hp, List.count_cons, List.count_append, hsa, hua]
    · simp [cdrom_exec_cmd_timed, hns, hp, List.count_cons, List.count_append, hsc, huc]
    · refine ⟨GdEv.lockAcq :: ((sendLoop env cmd 0 CD_CMD_RETRY_MAX).2 ++ u), ?_⟩
      simp [cdrom_exec_cmd_timed, hns, hp]
  · intro hid hnt
    have hns : ¬(sendLoop env cmd 0 CD_CMD_RETRY_MAX).1 ≤ 0 := by omega
    have hp := pollLoop_zero_none env hnt fuel 0
    rcases hpe : pollLoop env 0 0 fuel with ⟨p1, p2⟩
    rw [hpe] at hp
    simp at hp
    subst hp
    simp [cdrom_exec_cmd_timed, hns, hpe]
  · have hz := pollLoop_zero_no_abort env fuel 0
    have hsa := sendLoop_count_abort env cmd CD_CMD_RETRY_MAX 0
    by_cases hns : (sendLoop env cmd 0 CD_CMD_RETRY_MAX).1 ≤ 0
    · constructor
      · simp [cdrom_exec_cmd_timed, hns, List.count_cons, List.count_append, hsa]
      · simp [cdrom_exec_cmd_timed, hns]
        decide
    · rcases hpe : pollLoop env 0 0 fuel with ⟨p1, p2⟩
      rw [hpe] at hz
      rcases p1 with _ | v
      · constructor
        · simp [cdrom_exec_cmd_timed, hns, hpe, List.count_cons, List.count_append, hsa]
          simpa using hz.1
        · simp [cdrom_exec_cmd_timed, hns, hpe]
      · constructor
        · simp [cdrom_exec_cmd_timed, hns, hpe, List.count_cons, List.count_append, hsa]
          simpa using hz.1
        · have hv : v ≠ CD_ERR_TIMEOUT := by
            intro h
            exact hz.2 (by simp [h])
          simp [cdrom_exec_cmd_timed, hns, hpe, hv]

/-- Environment for the C2 witness: submission succeeds at once, the status
stream stays at processing forever, the clock advances 5 ms per read. -/
def envC2 : GdEnv :=
  ⟨fun _ _ => 1, fun _ => (CD_CMD_PROCESSING, ⟨0, 0, 0, 0⟩), fun k => 5 * k⟩

/-- Witness for C2: budget 10 ms, clock reads 0,5,10,... so the poller times
out at read 2 with one abort; with budget 0 it never returns nor aborts. -/
theorem c2_poll_timeout_behavior_witness :
    ((10 : Nat) ≠ 0) ∧ 0 < (sendLoop envC2 24 0 CD_CMD_RETRY_MAX).1 ∧
    (cdrom_exec_cmd_timed envC2 24 10 2).1 = some CD_ERR_TIMEOUT ∧
    (cdrom_exec_cmd_timed envC2 24 10 2).2.count GdEv.abort = 1 ∧
    (cdrom_exec_cmd_timed envC2 24 10 2).2.count GdEv.check = 2 ∧
    (cdrom_exec_cmd_timed envC2 24 0 2).1 = none ∧
    (cdrom_exec_cmd_timed envC2 24 0 2).2.count GdEv.abort = 0 := by
  have h := c2_poll_timeout_behavior envC2 24 10 2 2
  have hnt : ∀ k, (envC2.chk k).1 = CD_CMD_PROCESSING ∨ (envC2.chk k).1 = CD_CMD_BUSY :=
    fun _ => Or.inl rfl
  have h1 := h.1 (by decide) (by decide) hnt (by decide)
    (fun j hj1 hj2 => by
      have : j = 1 := by omega
      subst this
      decide)
    (by decide) (by decide)
  exact ⟨by decide, by decide, h1.1, h1.2.1, h1.2.2.1, h.2.1 (by decide) hnt, h.2.2.1⟩

/-! ### Claim C4: the reinit disc-change loop -/

/-- C4: cdrom_reinit_ex repeats the CMD_INIT cycle (fixed 10000 ms budget)
while the outcome is disc-changed: given outcomes [disc-changed,
disc-changed, ok] exactly three cycles run and the result is
cdrom_change_datatype on the caller's parameters; a first non-disc-changed
outcome of no-disc, system-error or timeout is surfaced after its single
cycle without consulting the datatype environment at all; any other first
outcome leads to the cdrom_change_datatype result after one cycle. -/
theorem c4_reinit_ex (envs envsE envsO : Nat → GdEnv) (dt dt' : DatatypeEnv)
    (sector_part track_type sector_size : Int) (fuel cycles : Nat) (rE rO : Int) :
    ((cdrom_exec_cmd_timed (envs 0) CMD_INIT 10000 fuel).1 = some CD_ERR_DISC_CHG →
      (cdrom_exec_cmd_timed (envs 1) CMD_INIT 10000 fuel).1 = some CD_ERR_DISC_CHG →
      (cdrom_exec_cmd_timed (envs 2) CMD_INIT 10000 fuel).1 = some CD_ERR_OK →
      3 ≤ cycles →
      cdrom_reinit_ex envs dt sector_part track_type sector_size fuel cycles =
        some (cdrom_change_datatype dt sector_part track_type sector_size, 3)) ∧
    ((cdrom_exec_cmd_timed (envsE 0) CMD_INIT 10000 fuel).1 = some rE →
      (rE = CD_ERR_NO_DISC ∨ rE = CD_ERR_SYS ∨ rE = CD_ERR_TIMEOUT) → 1 ≤ cycles →
      cdrom_reinit_ex envsE dt sector_part track_type sector_size fuel cycles =
        some (rE, 1) ∧
      cdrom_reinit_ex envsE dt' sector_part track_type sector_size fuel cycles =
        cdrom_reinit_ex envsE dt sector_part track_type sector_size fuel cycles) ∧
    ((cdrom_exec_cmd_timed (envsO 0) CMD_INIT 10000 fuel).1 = some rO →
      rO ≠ CD_ERR_DISC_CHG → rO ≠ CD_ERR_NO_DISC → rO ≠ CD_ERR_SYS → rO ≠ CD_ERR_TIMEOUT →
      1 ≤ cycles →
      cdrom_reinit_ex envsO dt sector_part track_type sector_size fuel cycles =
        some (cdrom_change_datatype dt sector_part track_type sector_size, 1)) := by
  refine ⟨?_, ?_, ?_⟩
  · intro h0 h1 h2 hc
    obtain ⟨c, rfl⟩ : ∃ c, cycles = c + 1 + 1 + 1 := ⟨cycles - 3, by omega⟩
    simp [cdrom_reinit_ex, reinitLoop, h0, h1, h2, CD_ERR_OK, CD_ERR_DISC_CHG,
      CD_ERR_NO_DISC, CD_ERR_SYS, CD_ERR_TIMEOUT]
  · intro h0 hr hc
    obtain ⟨c, rfl⟩ : ∃ c, cycles = c + 1 := ⟨cycles - 1, by omega⟩
    have hne : rE ≠ CD_ERR_DISC_CHG := by
      rcases hr with h | h | h <;> subst h <;> decide
    constructor <;>
      simp [cdrom_reinit_ex, reinitLoop, h0, hne, hr]
  · intro h0 hne h1 h2 h3 hc
    obtain ⟨c, rfl⟩ : ∃ c, cycles = c + 1 := ⟨cycles - 1, by omega⟩
    simp [cdrom_reinit_ex, reinitLoop, h0, hne, h1, h2, h3]

/-- Init-cycle environment whose outcome is disc-changed. -/
def envInitDisc : GdEnv := ⟨fun _ _ => 1, fun _ => (CD_CMD_FAILED, ⟨6, 0, 0, 0⟩), fun _ => 0⟩

/-- Init-cycle environment whose outcome is ok. -/
def envInitOk : GdEnv := ⟨fun _ _ => 1, fun _ => (CD_CMD_COMPLETED, ⟨0, 0, 0, 0⟩), fun _ => 0⟩

/-- Init-cycle environment whose outcome is no-disc. -/
def envInitNoDisc : GdEnv := ⟨fun _ _ => 1, fun _ => (CD_CMD_FAILED, ⟨2, 0, 0, 0⟩), fun _ => 0⟩

/-- Init-cycle environment whose outcome is no-active-command. -/
def envInitNoActive : GdEnv :=
  ⟨fun _ _ => 1, fun _ => (CD_CMD_NOT_FOUND, ⟨0, 0, 0, 0⟩), fun _ => 0⟩

/-- Cycle sequence [disc-changed, disc-changed, ok]. -/
def envsReinit : Nat → GdEnv := fun i => if i ≤ 1 then envInitDisc else envInitOk

/-- Datatype environment whose set-mode syscall echoes the sector size. -/
def dtEcho : DatatypeEnv := ⟨⟨0, 0⟩, fun p => p.sector_size⟩

/-- Datatype environment whose set-mode syscall returns 42. -/
def dtConst : DatatypeEnv := ⟨⟨0, 0⟩, fun _ => 42⟩

/-- Witness for C4 on the concrete cycle sequences. -/
theorem c4_reinit_ex_witness :
    (cdrom_exec_cmd_timed (envsReinit 0) CMD_INIT 10000 1).1 = some CD_ERR_DISC_CHG ∧
    (cdrom_exec_cmd_timed (envsReinit 2) CMD_INIT 10000 1).1 = some CD_ERR_OK ∧
    cdrom_reinit_ex envsReinit dtEcho (-1) (-1) (-1) 1 3 =
      some (cdrom_change_datatype dtEcho (-1) (-1) (-1), 3) ∧
    (cdrom_reinit_ex (fun _ => envInitNoDisc) dtEcho (-1) (-1) (-1) 1 1 =
        some (CD_ERR_NO_DISC, 1) ∧
      cdrom_reinit_ex (fun _ => envInitNoDisc) dtConst (-1) (-1) (-1) 1 1 =
        cdrom_reinit_ex (fun _ => envInitNoDisc) dtEcho (-1) (-1) (-1) 1 1) ∧
    cdrom_reinit_ex (fun _ => envInitNoActive) dtEcho (-1) (-1) (-1) 1 1 =
      some (cdrom_change_datatype dtEcho (-1) (-1) (-1), 1) := by
  have h := c4_reinit_ex envsReinit (fun _ => envInitNoDisc) (fun _ => envInitNoActive)
    dtEcho dtConst (-1) (-1) (-1) 1 3 CD_ERR_NO_DISC CD_ERR_NO_ACTIVE
  refine ⟨by decide, by decide, ?_, ?_, ?_⟩
  · exact h.1 (by decide) (by decide) (by decide) (by decide)
  · exact (c4_reinit_ex envsReinit (fun _ => envInitNoDisc) (fun _ => envInitNoActive)
      dtEcho dtConst (-1) (-1) (-1) 1 1 CD_ERR_NO_DISC CD_ERR_NO_ACTIVE).2.1
      (by decide) (Or.inl rfl) (by decide)
  · exact (c4_reinit_ex envsReinit (fun _ => envInitNoDisc) (fun _ => envInitNoActive)
      dtEcho dtConst (-1) (-1) (-1) 1 1 CD_ERR_NO_DISC CD_ERR_NO_ACTIVE).2.2
      (by decide) (by decide) (by decide) (by decide) (by decide) (by decide)

/-! ### Claim C8: drive-gate mutual exclusion -/

/-- Non-lock events leave the owner state unchanged and are always
permitted. -/
lemma lockStep_nonlock (o : Option Bool) (th : Bool) (e : GdEv)
    (h : isLockEv e = false) : lockStep o th e = some o := by
  cases e <;> simp [isLockEv] at h ⊢ <;> rfl

/-- A run in which one thread never appears is the tagging of the other
thread's projection. -/
lemma projEv_true_nil (s : List (Bool × GdEv)) (h : projEv true s = []) :
    s = (projEv false s).map (fun e => (false, e)) := by
  induction s with
  | nil => rfl
  | cons p s ih =>
    rcases p with ⟨th, e⟩
    cases th
    · have h' : projEv true s = [] := h
      have hs := ih h'
      show ((false, e) :: s) = ((e :: projEv false s).map (fun x => (false, x)))
      simp only [List.map_cons]
      rw [← hs]
    · exact absurd h (by simp [projEv])

/-- While thread A holds the gate and thread B's next event is an acquire,
only A can be scheduled: the run begins with the rest of A's cycle (its
lock-free body then its release), after which the gate is free and B's whole
trace is still pending. -/
lemma lockOk_held_run (tB : List GdEv) :
    ∀ s body, body.all (fun e => !(isLockEv e)) = true →
      lockOk (some true) s = true →
      projEv true s = body ++ [GdEv.lockRel] →
      projEv false s = GdEv.lockAcq :: tB →
      ∃ s', s = ((body ++ [GdEv.lockRel]).map (fun e => (true, e))) ++ s' ∧
        lockOk none s' = true ∧ projEv true s' = [] ∧
        projEv false s' = GdEv.lockAcq :: tB := by
  intro s
  induction s with
  | nil =>
    intro body hb hok hpt hpf
    simp [projEv] at hpt
  | cons p s ih =>
    intro body hb hok hpt hpf
    rcases p with ⟨th, e⟩
    cases th
    · exfalso
      simp only [projEv, beq_self_eq_true, if_true] at hpf
      have he : e = GdEv.lockAcq := by
        simpa using congrArg List.head? hpf
      subst he
      simp [lockOk, lockStep] at hok
    · simp only [projEv, beq_self_eq_true, if_true] at hpt
      have hpf' : projEv false s = GdEv.lockAcq :: tB := by
        simpa [projEv] using hpf
      cases body with
      | nil =>
        have he : e = GdEv.lockRel := by
          simpa using congrArg (fun l => l.head?) hpt
        subst he
        have hpt' : projEv true s = [] := by
          simpa using congrArg List.tail hpt
        have hok' : lockOk none s = true := by
          simpa [lockOk, lockStep] using hok
        exact ⟨s, by simp, hok', hpt', hpf'⟩
      | cons a body' =>
        have he : e = a := by
          simpa using congrArg (fun l => l.head?) hpt
        subst he
        have hpt' : projEv true s = body' ++ [GdEv.lockRel] := by
          simpa using congrArg List.tail hpt
        have ha : isLockEv e = false := by
          have := hb
          simp [List.all_cons] at this
          simpa using this.1
        have hok' : lockOk (some true) s = true := by
          rw [lockOk, lockStep_nonlock (some true) true e ha] at hok
          exact hok
        have hb' : body'.all (fun x => !(isLockEv x)) = true := by
          simp [List.all_cons] at hb
          simpa [List.all_eq_true] using fun x hx => (hb.2 x hx)
        obtain ⟨s', h1, h2, h3, h4⟩ := ih body' hb' hok' hpt' hpf'
        exact ⟨s', by simp [h1], h2, h3, h4⟩

/-- A submission-loop trace contains no lock event. -/
lemma sendLoop_nonlock (env : GdEnv) (cmd : Int) (r i : Nat) :
    (sendLoop env cmd i r).2.all (fun e => !(isLockEv e)) = true := by
  rw [List.all_eq_true]
  intro e he
  rcases sendLoop_mem env cmd r i e he with h | h | h <;> subst h <;> decide

/-- A poll-loop trace contains no lock event. -/
lemma pollLoop_nonlock (env : GdEnv) (timeout fuel k : Nat) :
    (pollLoop env timeout k fuel).2.all (fun e => !(isLockEv e)) = true := by
  rw [List.all_eq_true]
  intro e he
  rcases pollLoop_mem env timeout fuel k e he with h | h | h | h <;> subst h <;> decide

/-- C8: (shape) every completed cdrom_exec_cmd_timed cycle, on every return
path including the submission-failure one, acquires the drive gate as its
first action and releases it as its last, with no lock operation in between
(the gate is held from before submission until after classification); and
(mutual exclusion) in any lock-valid interleaving of two such cycle traces
in which caller A (thread true) acquires first, the whole of A's cycle runs
before any event of caller B: the interleaving is exactly A's trace followed
by B's, so B's submission does not begin until A has fully released the
gate. -/
theorem c8_drive_gate (env : GdEnv) (cmd : Int) (timeout fuel : Nat) (v : Int)
    (tr : List GdEv) (s : List (Bool × GdEv)) (bodyA bodyB : List GdEv) :
    (cdrom_exec_cmd_timed env cmd timeout fuel = (some v, tr) →
      ∃ body, tr = GdEv.lockAcq :: (body ++ [GdEv.lockRel]) ∧
        body.all (fun e => !(isLockEv e)) = true) ∧
    (bodyA.all (fun e => !(isLockEv e)) = true →
      bodyB.all (fun e => !(isLockEv e)) = true →
      projEv true s = GdEv.lockAcq :: (bodyA ++ [GdEv.lockRel]) →
      projEv false s = GdEv.lockAcq :: (bodyB ++ [GdEv.lockRel]) →
      lockOk none s = true →
      s.head? = some (true, GdEv.lockAcq) →
      s = ((GdEv.lockAcq :: (bodyA ++ [GdEv.lockRel])).map (fun e => (true, e))) ++
          ((GdEv.lockAcq :: (bodyB ++ [GdEv.lockRel])).map (fun e => (false, e)))) := by
  constructor
  · intro h
    by_cases hns : (sendLoop env cmd 0 CD_CMD_RETRY_MAX).1 ≤ 0
    · refine ⟨(sendLoop env cmd 0 CD_CMD_RETRY_MAX).2, ?_, sendLoop_nonlock env cmd _ 0⟩
      simp only [cdrom_exec_cmd_timed, if_pos hns] at h
      exact (Prod.mk.injEq _ _ _ _ |>.mp h).2.symm
    · rcases hp : (pollLoop env timeout 0 fuel).1 with _ | v'
      · exfalso
        simp only [cdrom_exec_cmd_timed, if_neg hns, hp] at h
        exact Option.noConfusion (Prod.mk.injEq _ _ _ _ |>.mp h).1
      · refine ⟨(sendLoop env cmd 0 CD_CMD_RETRY_MAX).2 ++ (pollLoop env timeout 0 fuel).2,
          ?_, ?_⟩
        · simp only [cdrom_exec_cmd_timed, if_neg hns, hp] at h
          exact (Prod.mk.injEq _ _ _ _ |>.mp h).2.symm
        · rw [List.all_append, sendLoop_nonlock env cmd CD_CMD_RETRY_MAX 0,
            pollLoop_nonlock env timeout fuel 0]
          rfl
  · intro hbA hbB hptA hpfA hok hhead
    rcases s with _ | ⟨p, s1⟩
    · simp at hhead
    · have hp : p = (true, GdEv.lockAcq) := by
        simpa using hhead
      subst hp
      have hptA' : projEv true s1 = bodyA ++ [GdEv.lockRel] := by
        have : projEv true ((true, GdEv.lockAcq) :: s1) =
            GdEv.lockAcq :: projEv true s1 := rfl
        rw [this] at hptA
        exact (List.cons.injEq _ _ _ _ |>.mp hptA).2
      have hpfA' : projEv false s1 = GdEv.lockAcq :: (bodyB ++ [GdEv.lockRel]) := by
        have : projEv false ((true, GdEv.lockAcq) :: s1) = projEv false s1 := rfl
        rw [this] at hpfA
        exact hpfA
      have hok1 : lockOk (some true) s1 = true := by
        simpa [lockOk, lockStep] using hok
      obtain ⟨s', h1, h2, h3, h4⟩ :=
        lockOk_held_run (bodyB ++ [GdEv.lockRel]) s1 bodyA hbA hok1 hptA' hpfA'
      have hs' : s' = (GdEv.lockAcq :: (bodyB ++ [GdEv.lockRel])).map (fun e => (false, e)) := by
        have := projEv_true_nil s' h3
        rw [h4] at this
        exact this
      rw [h1, hs']
      simp

/-- Environment for the C8 witness: submission succeeds at once and the
first check completes. -/
def envC8 : GdEnv := ⟨fun _ _ => 1, fun _ => (CD_CMD_COMPLETED, ⟨0, 0, 0, 0⟩), fun _ => 0⟩

/-- Lock-free body of the witness cycle. -/
def bodyC8 : List GdEv := [GdEv.send, GdEv.tick, GdEv.check]

/-- Trace of the witness cycle. -/
def trC8 : List GdEv := GdEv.lockAcq :: (bodyC8 ++ [GdEv.lockRel])

/-- Sequential interleaving of two witness cycles, caller A first. -/
def sC8 : List (Bool × GdEv) :=
  (trC8.map (fun e => (true, e))) ++ (trC8.map (fun e => (false, e)))

/-- Witness for C8 on a concrete completed cycle and a concrete lock-valid
interleaving. -/
theorem c8_drive_gate_witness :
    (∃ body, trC8 = GdEv.lockAcq :: (body ++ [GdEv.lockRel]) ∧
      body.all (fun e => !(isLockEv e)) = true) ∧
    sC8 = ((GdEv.lockAcq :: (bodyC8 ++ [GdEv.lockRel])).map (fun e => (true, e))) ++
        ((GdEv.lockAcq :: (bodyC8 ++ [GdEv.lockRel])).map (fun e => (false, e))) := by
  have h := c8_drive_gate envC8 24 0 1 CD_ERR_OK trC8 sC8 bodyC8 bodyC8
  exact ⟨h.1 (by decide),
    h.2 (by decide) (by decide) (by decide) (by decide) (by decide) rfl⟩
